import Mathlib

/-!
Verification of the FinanceBot Pro portfolio-optimization engine.

Shallow embedding of the portfolio-optimization core of
`src/backend/server.py` (class `PortfolioOptimizer` and the HTTP
endpoints built on it), over exact rational arithmetic.

Modelling conventions:
* Machine floats are modelled by `ℚ`.  The floating-point square root
  (`np.sqrt`) is abstracted as a parameter `sqrtFn : ℚ → ℚ`; every
  theorem that mentions volatility is stated for an arbitrary `sqrtFn`,
  so nothing depends on a particular square-root model.  Note that
  `ℚ`-division by zero yields `0` (this only matters for the Sharpe
  ratio at zero volatility, which no claim depends on).
* The external SLSQP solver (`scipy.optimize.minimize`) is abstracted as
  a parameter `solver : SolveProblem → SolveResult`, where a
  `SolveProblem` records exactly the arguments the source passes to
  `minimize` (objective function, initial guess, box bounds, and the
  equality constraints: the budget constraint `sum(x) = 1`, which is
  always passed, plus the optional target-return constraint used by the
  frontier sweep).  Functions that call the solver are "instrumented":
  the `_run` variants additionally return the exact list of
  `SolveProblem`s handed to the solver, so that "the solver is (not)
  invoked" is statable.
* The seeded NumPy random stream (`np.random.seed(42)` followed by
  successive `np.random.normal(0.001, 0.02, 252)` calls) is abstracted
  as a stream `d : ℕ → ℚ` of consecutive draws; the k-th draw produced
  after seeding is `d k`.  The seed is fixed, therefore the stream is
  one fixed function, not symbol-dependent.
-/

namespace FinanceBot

abbrev Vec := List ℚ
abbrev Mat := List (List ℚ)

/-- Vector dot product, `np.dot` of two vectors (sum of pairwise products). -/
def dot (a b : Vec) : ℚ := (List.zipWith (· * ·) a b).sum

/-- Matrix-vector product `np.dot(cov_matrix, weights)`: one dot per row. -/
def matVec (m : Mat) (v : Vec) : Vec := m.map (fun row => dot row v)

/-- The quadratic form `np.dot(weights.T, np.dot(cov_matrix, weights))`. -/
def qform (w : Vec) (cov : Mat) : ℚ := dot w (matVec cov w)

/-- Line 85 of `server.py`: `self.risk_free_rate = 0.02`. -/
def riskFreeRate : ℚ := 2/100

/-- The exact expression handed to `np.sqrt` in `portfolio_stats`
(`server.py` line 118): the raw quadratic form, with no clamping. -/
def volatilitySqrtArg (w : Vec) (cov : Mat) : ℚ := qform w cov

/-- Modelled from the spec (§4.3), not from the source: the spec demands
that a negative quadratic form be clamped to 0 before the square root.
This definition exists only to be compared with `volatilitySqrtArg`. -/
def volatilitySqrtArgClamped (w : Vec) (cov : Mat) : ℚ :=
  max (volatilitySqrtArg w cov) 0

/-- Result triple of `PortfolioOptimizer.portfolio_stats`. -/
structure Stats where
  ret : ℚ
  vol : ℚ
  sharpe : ℚ
deriving DecidableEq, Repr

/-- Embeds `PortfolioOptimizer.portfolio_stats` (`server.py` lines 115-120):
`portfolio_return = np.sum(mean_returns * weights)`,
`portfolio_volatility = np.sqrt(np.dot(weights.T, np.dot(cov_matrix, weights)))`,
`sharpe_ratio = (portfolio_return - self.risk_free_rate) / portfolio_volatility`. -/
def portfolio_stats (sqrtFn : ℚ → ℚ) (weights : Vec) (mean_returns : Vec)
    (cov_matrix : Mat) : Stats :=
  let portfolio_return := dot mean_returns weights
  let portfolio_volatility := sqrtFn (volatilitySqrtArg weights cov_matrix)
  { ret := portfolio_return
    vol := portfolio_volatility
    sharpe := (portfolio_return - riskFreeRate) / portfolio_volatility }

/-- The three objective functions the source can pass to `minimize`
(`negative_sharpe_ratio`, `portfolio_volatility`,
`negative_portfolio_return`). -/
inductive Objective where
  | negSharpe
  | volatility
  | negReturn
deriving DecidableEq, Repr

/-- One call to `scipy.optimize.minimize(objective, initial_guess,
args=(mean_returns, cov_matrix), method='SLSQP', bounds=bounds,
constraints=...)`.  `targetReturn = some t` records the extra equality
constraint `np.sum(mean_returns * x) - t = 0` added by the frontier
sweep; the budget constraint `np.sum(x) - 1 = 0` is passed in every
call and is therefore implicit in the record. -/
structure SolveProblem where
  objective : Objective
  init : Vec
  bounds : List (ℚ × ℚ)
  targetReturn : Option ℚ
  mean_returns : Vec
  cov_matrix : Mat
deriving DecidableEq, Repr

/-- The fields of the `scipy.optimize.OptimizeResult` the source reads:
`result.success` and `result.x`. -/
structure SolveResult where
  success : Bool
  x : Vec
deriving DecidableEq, Repr

abbrev Solver := SolveProblem → SolveResult

/-- Lines 150-155 of `server.py`: the box bounds selected by
`risk_tolerance`; any string other than `"conservative"` and
`"moderate"` reaches the `else` branch and gets the aggressive bounds. -/
def riskBounds (risk_tolerance : String) (n_assets : ℕ) : List (ℚ × ℚ) :=
  if risk_tolerance = "conservative" then
    List.replicate n_assets (5/100, 40/100)
  else if risk_tolerance = "moderate" then
    List.replicate n_assets (2/100, 60/100)
  else
    List.replicate n_assets (1/100, 80/100)

/-- Lines 161-166 of `server.py`: objective dispatch; any string other than
`"sharpe"` and `"min_volatility"` reaches the `else` branch and gets the
max-return objective. -/
def chooseObjective (method : String) : Objective :=
  if method = "sharpe" then .negSharpe
  else if method = "min_volatility" then .volatility
  else .negReturn

/-- Lines 158 and 211 of `server.py`: `initial_guess = np.array([1/n_assets] * n_assets)`. -/
def equalWeights (n_assets : ℕ) : Vec := List.replicate n_assets (1 / (n_assets : ℚ))

/-- The single `minimize` call constructed by
`PortfolioOptimizer.optimize_portfolio` (`server.py` lines 169-176). -/
def optProblem (symbols : List String) (mean_returns : Vec) (cov_matrix : Mat)
    (method risk_tolerance : String) : SolveProblem :=
  { objective := chooseObjective method
    init := equalWeights symbols.length
    bounds := riskBounds risk_tolerance symbols.length
    targetReturn := none
    mean_returns := mean_returns
    cov_matrix := cov_matrix }

/-- The dictionary returned by `PortfolioOptimizer.optimize_portfolio`
on success (`server.py` lines 187-194). -/
structure OptResult where
  symbols : List String
  weights : Vec
  expected_return : ℚ
  volatility : ℚ
  sharpe : ℚ
  allocation : List (String × ℚ)
deriving DecidableEq, Repr

/-- Embeds `PortfolioOptimizer.optimize_portfolio` (`server.py` lines 137-200),
instrumented: the first component is the list of problems handed to the
solver, in order.  The historical-data fetch and statistics computation
(lines 141-142) are deterministic given the fetch outcome and never fail
(`get_historical_data` falls back to mock data on any provider error),
so `mean_returns`/`cov_matrix` enter as parameters.  Note there is no
feasibility validation of the bounds: the function builds the problem
and invokes the solver directly.  On `result.success` it returns the
statistics of `result.x`; otherwise it raises
`Exception("Optimization failed to converge")`, modelled as `.error`. -/
def optimize_run (solver : Solver) (sqrtFn : ℚ → ℚ) (symbols : List String)
    (mean_returns : Vec) (cov_matrix : Mat) (method risk_tolerance : String) :
    List SolveProblem × Except String OptResult :=
  let prob := optProblem symbols mean_returns cov_matrix method risk_tolerance
  let result := solver prob
  if result.success then
    let s := portfolio_stats sqrtFn result.x mean_returns cov_matrix
    ([prob], .ok
      { symbols := symbols
        weights := result.x
        expected_return := s.ret
        volatility := s.vol
        sharpe := s.sharpe
        allocation := symbols.zip result.x })
  else
    ([prob], .error "Optimization failed to converge")

/-- Result component of `optimize_run`. -/
def optimize_portfolio (solver : Solver) (sqrtFn : ℚ → ℚ) (symbols : List String)
    (mean_returns : Vec) (cov_matrix : Mat) (method risk_tolerance : String) :
    Except String OptResult :=
  (optimize_run solver sqrtFn symbols mean_returns cov_matrix method risk_tolerance).2

/-! Embedding of the synthetic fallback generator of `get_historical_data`. -/

/-- The block of `n` consecutive draws of the seeded stream starting at
offset `start`: one `np.random.normal(0.001, 0.02, n)` call consumes the
next `n` values of the stream. -/
def drawsBlock (d : ℕ → ℚ) (start : ℕ) : ℕ → List ℚ
  | 0 => []
  | n + 1 => d start :: drawsBlock d (start + 1) n

/-- Embeds `returns = np.random.normal(0.001, 0.02, 252)` for the symbol at
position `i` of the loop (`server.py` line 101): the seed is set once
before the loop, so position `i` consumes draws `252*i .. 252*i+251`. -/
def mockReturns (d : ℕ → ℚ) (i : ℕ) : List ℚ := drawsBlock d (252 * i) 252

/-- Lines 102-104 of `server.py`: `prices = [100]`, then
`for ret in rets: prices.append(prices[-1] * (1 + ret))` for the given
return list (the caller passes `returns[1:]`). -/
def pricePath (p : ℚ) : List ℚ → List ℚ
  | [] => [p]
  | r :: rs => p :: pricePath (p * (1 + r)) rs

/-- The synthetic price series for the symbol at position `i`:
base price 100 compounded through `returns[1:]` by simple returns. -/
def mockSeries (d : ℕ → ℚ) (i : ℕ) : List ℚ :=
  pricePath 100 ((mockReturns d i).drop 1)

/-- Lines 99-106 of `server.py`: the mock DataFrame, one column per symbol,
the column of the symbol at position `i` being `mockSeries d i`. -/
def mockData (d : ℕ → ℚ) (symbols : List String) : List (String × List ℚ) :=
  symbols.enum.map (fun p => (p.2, mockSeries d p.1))

/-- Embeds `PortfolioOptimizer.get_historical_data` (`server.py` lines 87-106):
returns the provider data on success and falls back to the seeded mock
data on any provider failure.  `fetched` is the outcome of the
`yf.download(...)` call. -/
def get_historical_data (fetched : Except String (List (String × List ℚ)))
    (d : ℕ → ℚ) (symbols : List String) : List (String × List ℚ) :=
  match fetched with
  | .ok data => data
  | .error _ => mockData d symbols

/-! Embedding of the efficient-frontier generator. -/

/-- Line 210 of `server.py`: `bounds = tuple((0.01, 0.7) for _ in range(n_assets))`,
the frontier-specific box bounds, independent of any risk tolerance. -/
def frontierBounds (n_assets : ℕ) : List (ℚ × ℚ) :=
  List.replicate n_assets (1/100, 7/10)

/-- A `minimize` call of `generate_efficient_frontier`: frontier bounds,
equal-weight initial guess, and optionally the target-return equality
constraint. -/
def frontierProblem (obj : Objective) (n_assets : ℕ) (t : Option ℚ)
    (mean_returns : Vec) (cov_matrix : Mat) : SolveProblem :=
  { objective := obj
    init := equalWeights n_assets
    bounds := frontierBounds n_assets
    targetReturn := t
    mean_returns := mean_returns
    cov_matrix := cov_matrix }

/-- Embeds `np.linspace(a, b, num)`: `num` equally spaced values from `a` to `b`
inclusive (`a + i*(b-a)/(num-1)`; a single point degenerates to `[a]`).
Over `ℚ` the last value is exactly `b`. -/
def linspace (a b : ℚ) : ℕ → List ℚ
  | 0 => []
  | 1 => [a]
  | n + 2 => (List.range (n + 2)).map (fun i : ℕ => a + (b - a) * (i : ℚ) / ((n : ℚ) + 1))

/-- One point `{"return": .., "volatility": .., "sharpe_ratio": ..}` of
the frontier output (`server.py` lines 266-270). -/
structure FPoint where
  ret : ℚ
  vol : ℚ
  sharpe : ℚ
deriving DecidableEq, Repr

/-- The two endpoint returns of the frontier sweep: first the
minimum-volatility solve, then the maximum-return solve, both over the
frontier bounds from the equal-weight guess (`server.py` lines 213-239).
The source reads `min_vol_result.x` / `max_ret_result.x` without
checking `success` on these two solves. -/
def frontierEndpoints (solver : Solver) (sqrtFn : ℚ → ℚ)
    (mean_returns : Vec) (cov_matrix : Mat) (n_assets : ℕ) : ℚ × ℚ :=
  let min_vol_result := solver (frontierProblem .volatility n_assets none mean_returns cov_matrix)
  let minS := portfolio_stats sqrtFn min_vol_result.x mean_returns cov_matrix
  let max_ret_result := solver (frontierProblem .negReturn n_assets none mean_returns cov_matrix)
  let maxS := portfolio_stats sqrtFn max_ret_result.x mean_returns cov_matrix
  (minS.ret, maxS.ret)

/-- Embeds `target_returns = np.linspace(min_vol_return, max_ret_return, num_portfolios)`
(`server.py` line 242). -/
def frontierTargets (solver : Solver) (sqrtFn : ℚ → ℚ)
    (mean_returns : Vec) (cov_matrix : Mat) (n_assets num_portfolios : ℕ) : List ℚ :=
  let ep := frontierEndpoints solver sqrtFn mean_returns cov_matrix n_assets
  linspace ep.1 ep.2 num_portfolios

/-- The per-target solves of the sweep (`server.py` lines 245-259). -/
def frontierTargetProblems (solver : Solver) (sqrtFn : ℚ → ℚ)
    (mean_returns : Vec) (cov_matrix : Mat) (n_assets num_portfolios : ℕ) :
    List SolveProblem :=
  (frontierTargets solver sqrtFn mean_returns cov_matrix n_assets num_portfolios).map
    (fun t => frontierProblem .volatility n_assets (some t) mean_returns cov_matrix)

/-- Embeds `PortfolioOptimizer.generate_efficient_frontier`
(`server.py` lines 202-276), instrumented with the list of solver calls.
`dataRes` is the outcome of the data fetch plus statistics computation
(lines 205-206): if that part of the `try` body raises, the `except`
branch returns `[]` (line 276) and no solve happens.  Only the points
whose solve reports `success` are appended (line 261). -/
def generate_run (solver : Solver) (sqrtFn : ℚ → ℚ)
    (dataRes : Except String (Vec × Mat)) (symbols : List String)
    (num_portfolios : ℕ) : List SolveProblem × List FPoint :=
  match dataRes with
  | .error _ => ([], [])
  | .ok (mean_returns, cov_matrix) =>
    let n_assets := symbols.length
    let minVolProb := frontierProblem .volatility n_assets none mean_returns cov_matrix
    let maxRetProb := frontierProblem .negReturn n_assets none mean_returns cov_matrix
    let tprobs := frontierTargetProblems solver sqrtFn mean_returns cov_matrix n_assets num_portfolios
    let points := tprobs.filterMap (fun p =>
      let result := solver p
      if result.success then
        let s := portfolio_stats sqrtFn result.x mean_returns cov_matrix
        some { ret := s.ret, vol := s.vol, sharpe := s.sharpe }
      else none)
    (minVolProb :: maxRetProb :: tprobs, points)

/-- Points component of `generate_run`. -/
def generate_efficient_frontier (solver : Solver) (sqrtFn : ℚ → ℚ)
    (dataRes : Except String (Vec × Mat)) (symbols : List String)
    (num_portfolios : ℕ) : List FPoint :=
  (generate_run solver sqrtFn dataRes symbols num_portfolios).2

/-! Embedding of the HTTP endpoints. -/

/-- The request body of `POST /api/optimize-portfolio`
(`OptimizationRequest`, `server.py` lines 67-71). -/
structure OptimizationRequest where
  symbols : List String
  investment_amount : ℚ
  risk_tolerance : String := "moderate"
  optimization_method : String := "sharpe"
deriving DecidableEq, Repr

/-- The response body of `POST /api/optimize-portfolio`
(`OptimizationResult`, `server.py` lines 73-80).  `efficient_frontier`
is declared `Optional` in the model. -/
structure EndpointResult where
  symbols : List String
  weights : Vec
  expected_return : ℚ
  volatility : ℚ
  sharpe : ℚ
  allocation : List (String × ℚ)
  efficient_frontier : Option (List FPoint)
deriving DecidableEq, Repr

/-- The `optimize_portfolio` endpoint (`server.py` lines 453-482): it
runs the optimizer, converts the weight allocation to dollars, then
unconditionally calls `optimizer.generate_efficient_frontier(request.symbols)`
with the generator's default `num_portfolios = 10` and stores the
resulting list in `efficient_frontier`.  An optimizer failure is
re-wrapped as an HTTP 500. -/
def optimize_endpoint (solver : Solver) (sqrtFn : ℚ → ℚ)
    (mean_returns : Vec) (cov_matrix : Mat) (req : OptimizationRequest) :
    Except String EndpointResult :=
  match optimize_portfolio solver sqrtFn req.symbols mean_returns cov_matrix
      req.optimization_method req.risk_tolerance with
  | .error e => .error ("Portfolio optimization failed: " ++ e)
  | .ok r =>
    let dollar_allocation := r.allocation.map (fun p => (p.1, p.2 * req.investment_amount))
    let efficient_frontier :=
      generate_efficient_frontier solver sqrtFn (.ok (mean_returns, cov_matrix)) req.symbols 10
    .ok { symbols := r.symbols
          weights := r.weights
          expected_return := r.expected_return
          volatility := r.volatility
          sharpe := r.sharpe
          allocation := dollar_allocation
          efficient_frontier := some efficient_frontier }

/-- An HTTP error response (`fastapi.HTTPException`). -/
structure HTTPError where
  statusCode : ℕ
  detail : String
deriving DecidableEq, Repr

/-- Helper for `splitComma`: accumulates the current field (reversed)
while scanning the character list. -/
def splitCharAux (c : Char) : List Char → List Char → List (List Char)
  | [], acc => [acc.reverse]
  | x :: xs, acc =>
    if x = c then acc.reverse :: splitCharAux c xs []
    else splitCharAux c xs (x :: acc)

/-- Python's `symbols.split(",")` (`server.py` line 487): split on every
comma, keeping empty fields (so `"".split(",") == [""]`). -/
def splitComma (s : String) : List String :=
  (splitCharAux ',' s.toList []).map (fun l => { data := l })

/-- Rendering `str(HTTPException(400, "At least 2 symbols required for optimization"))`:
Starlette renders an `HTTPException` as `"{status_code}: {detail}"`. -/
def fewSymbolsStr : String := "400: At least 2 symbols required for optimization"

/-- The `GET /api/efficient-frontier/{symbols}` endpoint
(`server.py` lines 484-496), instrumented: the boolean records whether
`generate_efficient_frontier` was invoked.  The body splits on commas
and, for fewer than 2 symbols, raises `HTTPException(400, ...)` — but
that raise happens inside the `try`, whose blanket `except Exception`
catches it (FastAPI's `HTTPException` subclasses `Exception`) and
re-raises `HTTPException(500, f"Efficient frontier calculation failed: {str(e)}")`,
so the surfaced response is a 500, not a 400. -/
def get_efficient_frontier_run (solver : Solver) (sqrtFn : ℚ → ℚ)
    (dataRes : Except String (Vec × Mat)) (symbols : String) :
    Bool × Except HTTPError (List FPoint) :=
  let symbol_list := splitComma symbols
  if symbol_list.length < 2 then
    (false, .error { statusCode := 500
                     detail := "Efficient frontier calculation failed: " ++ fewSymbolsStr })
  else
    (true, .ok (generate_efficient_frontier solver sqrtFn dataRes symbol_list 10))

/-! Solver contract and concrete solver instances.

`SolverSound` is the documented contract of the external SLSQP solver:
whenever it reports `success`, the returned point satisfies the
constraint set it was given — the budget constraint within the solver
tolerance `1e-6` and the box bounds.  The concrete instances below are
used to exercise the theorems on closed inputs. -/

/-- Predicate: `x` respects the box bounds pointwise (and has the same length). -/
def WithinBounds (bounds : List (ℚ × ℚ)) (x : Vec) : Prop :=
  List.Forall₂ (fun b w => b.1 ≤ w ∧ w ≤ b.2) bounds x

/-- Contract of the external solver: a successful result satisfies the
budget constraint within `1e-6` and the box bounds it was handed. -/
def SolverSound (solver : Solver) : Prop :=
  ∀ p : SolveProblem, (solver p).success = true →
    |(solver p).x.sum - 1| ≤ 1/1000000 ∧ WithinBounds p.bounds (solver p).x

/-- A solver that reports success on every problem, returning the
initial guess. -/
def solverAlways : Solver := fun p => { success := true, x := p.init }

/-- A solver that fails on every problem. -/
def solverFail : Solver := fun _ => { success := false, x := [] }

/-- A sound solver: it succeeds exactly on two-asset problems with the
moderate bounds, returning the 50/50 portfolio. -/
def solverHalf : Solver := fun p =>
  if p.bounds = List.replicate 2 ((2/100 : ℚ), 60/100) then
    { success := true, x := [1/2, 1/2] }
  else
    { success := false, x := [] }

/-- The optimizer output produced by `solverHalf` on two symbols with
zero statistics (note `ℚ`-division by the zero volatility yields 0). -/
def rHalf : OptResult :=
  { symbols := ["A", "B"]
    weights := [1/2, 1/2]
    expected_return := 0
    volatility := 0
    sharpe := 0
    allocation := [("A", 1/2), ("B", 1/2)] }

/-- A concrete two-symbol moderate Sharpe request. -/
def reqAB : OptimizationRequest :=
  { symbols := ["A", "B"]
    investment_amount := 1000
    risk_tolerance := "moderate"
    optimization_method := "sharpe" }

/-- The endpoint response for `reqAB` under `solverHalf` with zero
statistics: `solverHalf` rejects every frontier problem (frontier
bounds differ from the moderate bounds), so the attached frontier is
the empty list. -/
def erAB : EndpointResult :=
  { symbols := ["A", "B"]
    weights := [1/2, 1/2]
    expected_return := 0
    volatility := 0
    sharpe := 0
    allocation := [("A", 500), ("B", 500)]
    efficient_frontier := some [] }

/-! General helper lemmas. -/

theorem forall₂_replicate_left {α β : Type} {P : α → β → Prop} {c : α} :
    ∀ {n : ℕ} {x : List β}, List.Forall₂ P (List.replicate n c) x → ∀ w ∈ x, P c w := by
  intro n
  induction n with
  | zero =>
    intro x h w hw
    cases h
    simp at hw
  | succ k ih =>
    intro x h w hw
    rw [List.replicate_succ] at h
    cases h with
    | cons hy htail =>
      rcases List.mem_cons.mp hw with h1 | h2
      · exact h1 ▸ hy
      · exact ih htail w h2

theorem length_filterMap_ite {α β : Type} (g : α → Bool) (f : α → β) :
    ∀ l : List α,
      (l.filterMap (fun a => if g a then some (f a) else none)).length = l.countP g := by
  intro l
  induction l with
  | nil => rfl
  | cons a t ih =>
    by_cases h : g a
    · simp [List.filterMap_cons, List.countP_cons, h, ih]
    · simp [List.filterMap_cons, List.countP_cons, h, ih]

theorem solverHalf_sound : SolverSound solverHalf := by
  intro p h
  unfold solverHalf at h ⊢
  by_cases hb : p.bounds = List.replicate 2 ((2/100 : ℚ), 60/100)
  · rw [if_pos hb]
    constructor
    · norm_num
    · rw [hb]
      refine List.Forall₂.cons ⟨by norm_num, by norm_num⟩
        (List.Forall₂.cons ⟨by norm_num, by norm_num⟩ List.Forall₂.nil)
  · rw [if_neg hb] at h
    exact absurd h (by simp)

/-!
Claim C2 (corrected).  The claim says `optimize` validates the
feasibility condition `N·lower ≤ 1 ≤ N·upper` before invoking the
solver and fails with a descriptive infeasibility error otherwise.  The
source (`server.py` lines 137-176) performs no such validation: the
bounds are built and the solver is invoked directly.
-/

/-- Counterexample to claim C2: with a single symbol and conservative
bounds the constraint set is infeasible (`1 × 0.40 < 1`), yet
`optimize_portfolio` still invokes the solver (the call list is the
singleton problem) and, under a solver that reports success, returns a
successful result instead of an infeasibility error. -/
theorem optimize_no_feasibility_precheck_cex :
    ¬ ((1 : ℚ) ≤ 1 * (40/100)) ∧
    (optimize_run solverAlways id ["A"] [0] [[0]] "sharpe" "conservative").1 =
      [optProblem ["A"] [0] [[0]] "sharpe" "conservative"] ∧
    (optimize_run solverAlways id ["A"] [0] [[0]] "sharpe" "conservative").2 =
      .ok { symbols := ["A"], weights := [1], expected_return := 0, volatility := 0,
            sharpe := 0, allocation := [("A", 1)] } := by
  refine ⟨by norm_num, by simp +decide [optimize_run, solverAlways], ?_⟩
  simp +decide [optimize_run, optProblem, riskBounds, chooseObjective, equalWeights,
    solverAlways, portfolio_stats, volatilitySqrtArg, qform, dot, matVec, riskFreeRate]

/-- Claim C2 as amended: `optimize_portfolio` performs no feasibility
check at all.  For every input — feasible or not — it hands the solver
exactly one problem, carrying the risk-tolerance bounds, and its only
failure mode is the solver's own non-convergence; no infeasibility
error exists. -/
theorem optimize_invokes_solver_unconditionally
    (solver : Solver) (sqrtFn : ℚ → ℚ) (symbols : List String)
    (mean_returns : Vec) (cov_matrix : Mat) (method rt : String) :
    (optimize_run solver sqrtFn symbols mean_returns cov_matrix method rt).1 =
      [optProblem symbols mean_returns cov_matrix method rt] ∧
    ((optimize_run solver sqrtFn symbols mean_returns cov_matrix method rt).2 =
        .error "Optimization failed to converge" ↔
      (solver (optProblem symbols mean_returns cov_matrix method rt)).success = false) := by
  constructor
  · by_cases h : (solver (optProblem symbols mean_returns cov_matrix method rt)).success <;>
      simp [optimize_run, h]
  · by_cases h : (solver (optProblem symbols mean_returns cov_matrix method rt)).success <;>
      simp [optimize_run, h]

/-!
Claim C4 (corrected).  The claim says any negative quadratic form is
clamped to 0 before the square root, so the square-root argument is
never negative.  The source (`server.py` line 118) applies `np.sqrt`
directly to the raw quadratic form with no clamping.
-/

/-- Counterexample to claim C4: for the weight vector `[1]` and
covariance matrix `[[-1]]` the quadratic form is `-1`; the argument
handed to the square root is that raw negative value, not its clamp
to 0 (with `sqrtFn = id` the computed volatility is `-1`, exposing the
unclamped argument). -/
theorem volatility_sqrt_arg_not_clamped_cex :
    volatilitySqrtArg [1] [[-1]] = -1 ∧
    volatilitySqrtArg [1] [[-1]] < 0 ∧
    volatilitySqrtArgClamped [1] [[-1]] = 0 ∧
    volatilitySqrtArg [1] [[-1]] ≠ volatilitySqrtArgClamped [1] [[-1]] ∧
    (portfolio_stats id [1] [0] [[-1]]).vol = -1 := by
  refine ⟨?_, ?_, ?_, ?_, ?_⟩ <;>
    norm_num [volatilitySqrtArg, volatilitySqrtArgClamped, portfolio_stats, qform,
      dot, matVec]

/-- Claim C4 as amended: `portfolio_stats` computes volatility as the
square root of the raw quadratic form `weightsᵗ·covariance·weights`,
with no clamping; the argument handed to the square root coincides with
its clamped value exactly when the quadratic form is nonnegative (as it
is for genuinely positive-semidefinite covariance input), and for a
negative quadratic form the negative value itself reaches the square
root. -/
theorem volatility_is_sqrt_of_raw_qform
    (sqrtFn : ℚ → ℚ) (w mean_returns : Vec) (cov : Mat) :
    (portfolio_stats sqrtFn w mean_returns cov).vol = sqrtFn (volatilitySqrtArg w cov) ∧
    (volatilitySqrtArg w cov = volatilitySqrtArgClamped w cov ↔ 0 ≤ qform w cov) := by
  refine ⟨rfl, ?_⟩
  unfold volatilitySqrtArgClamped volatilitySqrtArg
  constructor
  · intro h
    by_contra hneg
    push_neg at hneg
    have : max (qform w cov) 0 = 0 := max_eq_right (le_of_lt hneg)
    rw [this] at h
    exact absurd (h ▸ hneg) (lt_irrefl 0)
  · intro h
    exact (max_eq_left h).symm

/-!
Claim C8 (code bug).  For fewer than 2 symbols the endpoint body raises
`HTTPException(status_code=400, detail="At least 2 symbols required for optimization")`
before any data fetch or optimization — but that raise sits inside the
`try` block of `get_efficient_frontier` (`server.py` lines 484-496),
whose blanket `except Exception` catches it and re-raises
`HTTPException(500, f"Efficient frontier calculation failed: {str(e)}")`.
The surfaced response is therefore a 500 server error, not the 400
client input error the claim (and the code's own `raise`) intends.
-/

/-- Evaluation of the `GET /api/efficient-frontier/{symbols}` endpoint
at the failing input `"AAPL"` (a single symbol): the frontier generator
is never invoked (first component `false`), and the surfaced error has
status 500 wrapping the stringified 400, not status 400. -/
theorem frontier_single_symbol_rewrapped_500 :
    splitComma "AAPL" = ["AAPL"] ∧
    get_efficient_frontier_run solverAlways id (.ok ([0], [[0]])) "AAPL" =
      (false, .error { statusCode := 500
                       detail := "Efficient frontier calculation failed: " ++ fewSymbolsStr }) ∧
    (get_efficient_frontier_run solverAlways id (.ok ([0], [[0]])) "AAPL").2 ≠
      .error { statusCode := 400, detail := "At least 2 symbols required for optimization" } := by
  refine ⟨by decide, ?_, ?_⟩ <;>
    simp +decide [get_efficient_frontier_run, splitComma, splitCharAux, fewSymbolsStr]

/-!
Claim C9 (confirmed).  Unknown `risk_tolerance` strings silently fall
through to the aggressive bounds, unknown `optimization_method` strings
silently fall through to the max-return objective, and no invalid-enum
error exists: the outcome of `optimize_portfolio` is fully determined
by the solver.
-/

/-- Claim C9: for any `risk_tolerance` other than `"conservative"` and
`"moderate"` the aggressive bounds `(0.01, 0.80)` are applied, for any
`optimization_method` other than `"sharpe"` and `"min_volatility"` the
max-return objective is selected, and no invalid-enum validation error
is ever raised — the operation either fails with the solver
non-convergence message or succeeds with the solver's point. -/
theorem unknown_enum_fallthrough
    (solver : Solver) (sqrtFn : ℚ → ℚ) (symbols : List String)
    (mean_returns : Vec) (cov_matrix : Mat) (method rt : String) (n : ℕ)
    (hrt1 : rt ≠ "conservative") (hrt2 : rt ≠ "moderate")
    (hm1 : method ≠ "sharpe") (hm2 : method ≠ "min_volatility") :
    riskBounds rt n = List.replicate n (1/100, 80/100) ∧
    chooseObjective method = .negReturn ∧
    ((solver (optProblem symbols mean_returns cov_matrix method rt)).success = false →
      optimize_portfolio solver sqrtFn symbols mean_returns cov_matrix method rt =
        .error "Optimization failed to converge") ∧
    ((solver (optProblem symbols mean_returns cov_matrix method rt)).success = true →
      optimize_portfolio solver sqrtFn symbols mean_returns cov_matrix method rt =
        .ok { symbols := symbols
              weights := (solver (optProblem symbols mean_returns cov_matrix method rt)).x
              expected_return := (portfolio_stats sqrtFn
                (solver (optProblem symbols mean_returns cov_matrix method rt)).x
                mean_returns cov_matrix).ret
              volatility := (portfolio_stats sqrtFn
                (solver (optProblem symbols mean_returns cov_matrix method rt)).x
                mean_returns cov_matrix).vol
              sharpe := (portfolio_stats sqrtFn
                (solver (optProblem symbols mean_returns cov_matrix method rt)).x
                mean_returns cov_matrix).sharpe
              allocation := symbols.zip
                (solver (optProblem symbols mean_returns cov_matrix method rt)).x }) := by
  refine ⟨by simp [riskBounds, hrt1, hrt2], by simp [chooseObjective, hm1, hm2], ?_, ?_⟩
  · intro h
    simp [optimize_portfolio, optimize_run, h]
  · intro h
    simp [optimize_portfolio, optimize_run, h]

/-- Witness for C9 at the invalid enum values `"yolo"` and `"spicy"`. -/
theorem unknown_enum_fallthrough_witness :
    riskBounds "yolo" 3 = List.replicate 3 (1/100, 80/100) ∧
    chooseObjective "spicy" = .negReturn ∧
    optimize_portfolio solverAlways id ["A"] [0] [[0]] "spicy" "yolo" =
      .ok { symbols := ["A"], weights := [1], expected_return := 0, volatility := 0,
            sharpe := 0, allocation := [("A", 1)] } := by
  obtain ⟨hb, ho, _, hc⟩ := unknown_enum_fallthrough solverAlways id ["A"] [0] [[0]]
    "spicy" "yolo" 3 (by decide) (by decide) (by decide) (by decide)
  refine ⟨hb, ho, ?_⟩
  rw [hc rfl]
  simp +decide [optProblem, riskBounds, chooseObjective, equalWeights, solverAlways,
    portfolio_stats, volatilitySqrtArg, qform, dot, matVec, riskFreeRate]

/-!
Claim C1 (confirmed).  For every successful optimize call the returned
weights are exactly the solver's point for the risk-tolerance-bounded
problem.  Under the solver's documented contract (`SolverSound`: a
successful point satisfies the constraint set it was handed), the
weight vector sums to 1 within `1e-6` and respects the bounds selected
by the risk tolerance.
-/

/-- Claim C1: for any symbol list, any method, and any risk tolerance in
the documented enum, a successful optimization returns weights summing
to 1 within `1e-6` with every weight inside the inclusive bounds of
that risk tolerance — assuming the external solver honors its
constraint set on success. -/
theorem optimize_weights_sum_one_and_within_bounds
    (solver : Solver) (sqrtFn : ℚ → ℚ) (symbols : List String)
    (mean_returns : Vec) (cov_matrix : Mat) (method rt : String) (r : OptResult)
    (hsolver : SolverSound solver)
    (hrt : rt = "conservative" ∨ rt = "moderate" ∨ rt = "aggressive")
    (_hn : 1 ≤ symbols.length)
    (hok : optimize_portfolio solver sqrtFn symbols mean_returns cov_matrix method rt = .ok r) :
    |r.weights.sum - 1| ≤ 1/1000000 ∧
    ∀ w ∈ r.weights,
      (rt = "conservative" → 5/100 ≤ w ∧ w ≤ 40/100) ∧
      (rt = "moderate" → 2/100 ≤ w ∧ w ≤ 60/100) ∧
      (rt = "aggressive" → 1/100 ≤ w ∧ w ≤ 80/100) := by
  unfold optimize_portfolio optimize_run at hok
  by_cases h : (solver (optProblem symbols mean_returns cov_matrix method rt)).success
  · simp only [h, if_true, if_pos] at hok
    simp only [Except.ok.injEq] at hok
    subst hok
    obtain ⟨hsum, hbnd⟩ :=
      hsolver (optProblem symbols mean_returns cov_matrix method rt) h
    refine ⟨hsum, ?_⟩
    intro w hw
    rcases hrt with h1 | h1 | h1 <;> subst h1
    · rw [show (optProblem symbols mean_returns cov_matrix method "conservative").bounds =
          List.replicate symbols.length ((5:ℚ)/100, 40/100) from by
        simp [optProblem, riskBounds]] at hbnd
      have hb := forall₂_replicate_left hbnd w hw
      exact ⟨fun _ => hb, fun hc => absurd hc (by decide), fun hc => absurd hc (by decide)⟩
    · rw [show (optProblem symbols mean_returns cov_matrix method "moderate").bounds =
          List.replicate symbols.length ((2:ℚ)/100, 60/100) from by
        simp [optProblem, riskBounds]] at hbnd
      have hb := forall₂_replicate_left hbnd w hw
      exact ⟨fun hc => absurd hc (by decide), fun _ => hb, fun hc => absurd hc (by decide)⟩
    · rw [show (optProblem symbols mean_returns cov_matrix method "aggressive").bounds =
          List.replicate symbols.length ((1:ℚ)/100, 80/100) from by
        simp [optProblem, riskBounds]] at hbnd
      have hb := forall₂_replicate_left hbnd w hw
      exact ⟨fun hc => absurd hc (by decide), fun hc => absurd hc (by decide), fun _ => hb⟩
  · simp [h] at hok

/-- Witness for C1: the sound solver `solverHalf` succeeds on the
two-asset moderate problem with the 50/50 portfolio, which sums to 1
and lies in the moderate bounds. -/
theorem optimize_weights_sum_one_and_within_bounds_witness :
    |(rHalf.weights.sum - 1)| ≤ 1/1000000 ∧
    (2/100 ≤ (1:ℚ)/2 ∧ (1:ℚ)/2 ≤ 60/100) := by
  obtain ⟨hsum, hall⟩ := optimize_weights_sum_one_and_within_bounds solverHalf id ["A", "B"]
    [0, 0] [[0, 0], [0, 0]] "sharpe" "moderate" rHalf solverHalf_sound
    (Or.inr (Or.inl rfl)) (by norm_num)
    (by simp +decide [optimize_portfolio, optimize_run, optProblem, riskBounds,
      chooseObjective, equalWeights, solverHalf, portfolio_stats, volatilitySqrtArg,
      qform, dot, matVec, rHalf, riskFreeRate])
  exact ⟨hsum, (hall (1/2) (by simp [rHalf])).2.1 rfl⟩

/-!
Claim C3 (confirmed).  Non-convergence is handled asymmetrically:
`optimize` fails outright when the solver fails; the frontier sweep
silently omits a point whose solve fails; and a failed data
fetch/statistics step makes the frontier generator return the empty
list instead of propagating the error.
-/

/-- Claim C3: solver failure makes the whole optimize operation error
with no partial result; the frontier output retains exactly the target
solves that succeeded (failed targets are silently omitted); and a
failed data fetch or statistics computation yields the empty frontier
rather than an error. -/
theorem error_policy_asymmetry
    (solver : Solver) (sqrtFn : ℚ → ℚ) (symbols : List String)
    (mean_returns : Vec) (cov_matrix : Mat) (method rt e : String) (num : ℕ) :
    ((solver (optProblem symbols mean_returns cov_matrix method rt)).success = false →
      optimize_portfolio solver sqrtFn symbols mean_returns cov_matrix method rt =
        .error "Optimization failed to converge") ∧
    ((generate_efficient_frontier solver sqrtFn (.ok (mean_returns, cov_matrix)) symbols num).length =
      (frontierTargetProblems solver sqrtFn mean_returns cov_matrix symbols.length num).countP
        (fun p => (solver p).success)) ∧
    generate_efficient_frontier solver sqrtFn (.error e) symbols num = [] := by
  refine ⟨?_, ?_, rfl⟩
  · intro h
    simp [optimize_portfolio, optimize_run, h]
  · simp only [generate_efficient_frontier, generate_run]
    exact length_filterMap_ite (fun p => (solver p).success)
      (fun p => ({ ret := (portfolio_stats sqrtFn (solver p).x mean_returns cov_matrix).ret
                   vol := (portfolio_stats sqrtFn (solver p).x mean_returns cov_matrix).vol
                   sharpe := (portfolio_stats sqrtFn (solver p).x mean_returns cov_matrix).sharpe } : FPoint))
      (frontierTargetProblems solver sqrtFn mean_returns cov_matrix symbols.length num)

/-- Witness for C3 with the always-failing solver and a failed data
fetch. -/
theorem error_policy_asymmetry_witness :
    optimize_portfolio solverFail id ["A"] [0] [[0]] "sharpe" "moderate" =
      .error "Optimization failed to converge" ∧
    ((generate_efficient_frontier solverFail id (.ok ([0], [[0]])) ["A"] 10).length =
      (frontierTargetProblems solverFail id [0] [[0]] (["A"] : List String).length 10).countP
        (fun p => (solverFail p).success)) ∧
    generate_efficient_frontier solverFail id (.error "boom") ["A"] 10 = [] := by
  obtain ⟨ha, hb, hc⟩ :=
    error_policy_asymmetry solverFail id ["A"] [0] [[0]] "sharpe" "moderate" "boom" 10
  exact ⟨ha rfl, hb, hc⟩

/-!
Claim C7 (confirmed).  The stats reported in an optimization result are
computed by `portfolio_stats` on the returned weights, so feeding the
weights back through `portfolio_stats` reproduces them exactly — in
particular within `1e-6`.
-/

/-- Helper: a successful core optimization returns the solver's point
together with exactly its `portfolio_stats` values. -/
theorem optimize_core_roundtrip
    (solver : Solver) (sqrtFn : ℚ → ℚ) (symbols : List String)
    (mean_returns : Vec) (cov_matrix : Mat) (method rt : String) (r : OptResult)
    (hok : optimize_portfolio solver sqrtFn symbols mean_returns cov_matrix method rt = .ok r) :
    portfolio_stats sqrtFn r.weights mean_returns cov_matrix =
      { ret := r.expected_return, vol := r.volatility, sharpe := r.sharpe } := by
  unfold optimize_portfolio optimize_run at hok
  by_cases h : (solver (optProblem symbols mean_returns cov_matrix method rt)).success
  · simp only [h, if_true, if_pos] at hok
    simp only [Except.ok.injEq] at hok
    subst hok
    rfl
  · simp [h] at hok

/-- Claim C7: applying `portfolio_stats` (same mean returns, covariance,
risk-free rate) to the weights of a successful optimize response
reproduces the reported expected return, volatility and Sharpe ratio
exactly, hence within `1e-6`. -/
theorem optimize_roundtrip_stats
    (solver : Solver) (sqrtFn : ℚ → ℚ) (mean_returns : Vec) (cov_matrix : Mat)
    (req : OptimizationRequest) (er : EndpointResult)
    (hok : optimize_endpoint solver sqrtFn mean_returns cov_matrix req = .ok er) :
    portfolio_stats sqrtFn er.weights mean_returns cov_matrix =
      { ret := er.expected_return, vol := er.volatility, sharpe := er.sharpe } ∧
    |(portfolio_stats sqrtFn er.weights mean_returns cov_matrix).ret - er.expected_return| ≤ 1/1000000 ∧
    |(portfolio_stats sqrtFn er.weights mean_returns cov_matrix).vol - er.volatility| ≤ 1/1000000 ∧
    |(portfolio_stats sqrtFn er.weights mean_returns cov_matrix).sharpe - er.sharpe| ≤ 1/1000000 := by
  have key : portfolio_stats sqrtFn er.weights mean_returns cov_matrix =
      { ret := er.expected_return, vol := er.volatility, sharpe := er.sharpe } := by
    unfold optimize_endpoint at hok
    rcases hopt : optimize_portfolio solver sqrtFn req.symbols mean_returns cov_matrix
        req.optimization_method req.risk_tolerance with f | r <;> rw [hopt] at hok
    · exact absurd hok (by simp)
    · simp only [Except.ok.injEq] at hok
      subst hok
      exact optimize_core_roundtrip solver sqrtFn req.symbols mean_returns cov_matrix
        req.optimization_method req.risk_tolerance r hopt
  refine ⟨key, ?_, ?_, ?_⟩ <;> rw [key] <;> norm_num

/-- Witness for C7 at the concrete successful request `reqAB`. -/
theorem optimize_roundtrip_stats_witness :
    portfolio_stats id erAB.weights [0, 0] [[0, 0], [0, 0]] =
      { ret := erAB.expected_return, vol := erAB.volatility, sharpe := erAB.sharpe } ∧
    |(portfolio_stats id erAB.weights [0, 0] [[0, 0], [0, 0]]).ret - erAB.expected_return| ≤ 1/1000000 ∧
    |(portfolio_stats id erAB.weights [0, 0] [[0, 0], [0, 0]]).vol - erAB.volatility| ≤ 1/1000000 ∧
    |(portfolio_stats id erAB.weights [0, 0] [[0, 0], [0, 0]]).sharpe - erAB.sharpe| ≤ 1/1000000 :=
  optimize_roundtrip_stats solverHalf id [0, 0] [[0, 0], [0, 0]] reqAB erAB
    (by simp +decide [optimize_endpoint, optimize_portfolio, optimize_run, optProblem,
      riskBounds, chooseObjective, equalWeights, solverHalf, portfolio_stats,
      volatilitySqrtArg, qform, dot, matVec, riskFreeRate, reqAB, erAB,
      generate_efficient_frontier, generate_run, frontierProblem, frontierBounds,
      frontierTargets, frontierTargetProblems, frontierEndpoints, linspace] <;> norm_num)

/-!
Claim C10 (confirmed).  Every successful optimize-portfolio response
carries an `efficient_frontier` field holding the list produced by the
full frontier generation with its default of 10 points for the
request's symbols; the field is always a list (possibly empty), never
absent.
-/

/-- Claim C10: a successful endpoint response always has
`efficient_frontier = some (full 10-point frontier generation)`; in
particular the field is never `none`. -/
theorem endpoint_always_attaches_frontier
    (solver : Solver) (sqrtFn : ℚ → ℚ) (mean_returns : Vec) (cov_matrix : Mat)
    (req : OptimizationRequest) (er : EndpointResult)
    (hok : optimize_endpoint solver sqrtFn mean_returns cov_matrix req = .ok er) :
    er.efficient_frontier =
      some (generate_efficient_frontier solver sqrtFn (.ok (mean_returns, cov_matrix))
        req.symbols 10) ∧
    er.efficient_frontier ≠ none := by
  unfold optimize_endpoint at hok
  rcases hopt : optimize_portfolio solver sqrtFn req.symbols mean_returns cov_matrix
      req.optimization_method req.risk_tolerance with f | r <;> rw [hopt] at hok
  · exact absurd hok (by simp)
  · simp only [Except.ok.injEq] at hok
    subst hok
    exact ⟨rfl, by simp⟩

/-- Witness for C10 at `reqAB`: the attached frontier is the (here
empty) 10-point generation and the field is not `none`. -/
theorem endpoint_always_attaches_frontier_witness :
    erAB.efficient_frontier =
      some (generate_efficient_frontier solverHalf id (.ok ([0, 0], [[0, 0], [0, 0]]))
        reqAB.symbols 10) ∧
    erAB.efficient_frontier ≠ none :=
  endpoint_always_attaches_frontier solverHalf id [0, 0] [[0, 0], [0, 0]] reqAB erAB
    (by simp +decide [optimize_endpoint, optimize_portfolio, optimize_run, optProblem,
      riskBounds, chooseObjective, equalWeights, solverHalf, portfolio_stats,
      volatilitySqrtArg, qform, dot, matVec, riskFreeRate, reqAB, erAB,
      generate_efficient_frontier, generate_run, frontierProblem, frontierBounds,
      frontierTargets, frontierTargetProblems, frontierEndpoints, linspace] <;> norm_num)

/-! Lemmas about the synthetic fallback generator. -/

theorem pricePath_get_zero (p : ℚ) (l : List ℚ) : (pricePath p l).get? 0 = some p := by
  cases l <;> rfl

theorem pricePath_getElem_zero (p : ℚ) (l : List ℚ) : (pricePath p l)[0]? = some p := by
  cases l <;> simp [pricePath]

theorem pricePath_length (p : ℚ) (l : List ℚ) : (pricePath p l).length = l.length + 1 := by
  induction l generalizing p with
  | nil => rfl
  | cons r rs ih => simp [pricePath, ih]

theorem pricePath_get_succ :
    ∀ (l : List ℚ) (p : ℚ) (k : ℕ) (r : ℚ), l.get? k = some r →
      (pricePath p l).get? (k + 1) = ((pricePath p l).get? k).map (fun q => q * (1 + r)) := by
  intro l
  induction l with
  | nil =>
    intro p k r h
    cases h
  | cons x xs ih =>
    intro p k r h
    match k with
    | 0 =>
      simp only [List.get?_cons_zero, Option.some.injEq] at h
      subst h
      show (pricePath p (x :: xs)).get? 1 = ((pricePath p (x :: xs)).get? 0).map _
      simp [pricePath, pricePath_get_zero, pricePath_getElem_zero]
    | k + 1 =>
      have h2 : xs.get? k = some r := h
      show ((p :: pricePath (p * (1 + x)) xs).get? (k + 2)) =
        ((p :: pricePath (p * (1 + x)) xs).get? (k + 1)).map _
      rw [List.get?_cons_succ, List.get?_cons_succ]
      exact ih (p * (1 + x)) k r h2

theorem drawsBlock_length (d : ℕ → ℚ) : ∀ (n s : ℕ), (drawsBlock d s n).length = n := by
  intro n
  induction n with
  | zero => intro s; rfl
  | succ m ih => intro s; simp [drawsBlock, ih]

theorem drawsBlock_get (d : ℕ → ℚ) :
    ∀ (n k s : ℕ), k < n → (drawsBlock d s n).get? k = some (d (s + k)) := by
  intro n
  induction n with
  | zero =>
    intro k s h
    exact absurd h (Nat.not_lt_zero k)
  | succ m ih =>
    intro k s h
    match k with
    | 0 => simp [drawsBlock]
    | k + 1 =>
      rw [show drawsBlock d s (m + 1) = d s :: drawsBlock d (s + 1) m from rfl,
        List.get?_cons_succ, ih k (s + 1) (by omega)]
      have he : s + 1 + k = s + (k + 1) := by omega
      rw [he]

theorem mockReturns_get (d : ℕ → ℚ) (i k : ℕ) (hk : k < 252) :
    (mockReturns d i).get? k = some (d (252 * i + k)) :=
  drawsBlock_get d 252 k (252 * i) hk

theorem mockSeries_get_zero (d : ℕ → ℚ) (i : ℕ) :
    (mockSeries d i).get? 0 = some 100 :=
  pricePath_get_zero _ _

theorem mockSeries_length (d : ℕ → ℚ) (i : ℕ) : (mockSeries d i).length = 252 := by
  unfold mockSeries
  rw [pricePath_length, List.length_drop]
  rw [show (mockReturns d i).length = 252 from drawsBlock_length d 252 (252 * i)]

theorem mockSeries_step (d : ℕ → ℚ) (i k : ℕ) (hk : k + 1 < 252) :
    (mockSeries d i).get? (k + 1) =
      ((mockSeries d i).get? k).map (fun q => q * (1 + d (252 * i + (k + 1)))) := by
  apply pricePath_get_succ
  rw [List.get?_drop, mockReturns_get d i (1 + k) (by omega)]
  have he : 252 * i + (1 + k) = 252 * i + (k + 1) := by omega
  rw [he]

theorem mockSeries_get_one (d : ℕ → ℚ) (i : ℕ) :
    (mockSeries d i).get? 1 = some (100 * (1 + d (252 * i + 1))) := by
  have h := mockSeries_step d i 0 (by omega)
  rw [mockSeries_get_zero] at h
  show (mockSeries d i).get? (0 + 1) = _
  rw [h]
  simp only [Nat.zero_add]
  rfl

theorem mockData_fst (d : ℕ → ℚ) (symbols : List String) :
    (mockData d symbols).map Prod.fst = symbols := by
  unfold mockData
  rw [List.map_map]
  have hc : (Prod.fst ∘ fun p : ℕ × String => (p.2, mockSeries d p.1)) = Prod.snd := by
    funext p; rfl
  rw [hc, List.enum_map_snd]

theorem mockData_snd (d : ℕ → ℚ) (symbols : List String) :
    (mockData d symbols).map Prod.snd =
      (List.range symbols.length).map (fun i => mockSeries d i) := by
  unfold mockData
  rw [List.map_map]
  have hc : (Prod.snd ∘ fun p : ℕ × String => (p.2, mockSeries d p.1)) =
      (fun i => mockSeries d i) ∘ Prod.fst := by
    funext p; rfl
  rw [hc, ← List.map_map, List.enum_map_fst]

/-!
Claim C5 (corrected).  Two parts of the claim fail on the source
(`server.py` lines 94-106).  First, the drawn values are compounded as
simple returns (`prices[-1] * (1 + ret)`), not log-returns (which would
be `prices[-1] * exp(ret)`).  Second, `np.random.seed(42)` is executed
once before the per-symbol loop, so the symbol at position `i` consumes
draws `252*i .. 252*i+251` of the one stream: distinct positions get
distinct draw segments, so the per-symbol series are not identical in
shape — they depend on the position in the list.
-/

/-- Counterexample to claim C5.  (i) With every draw equal to 1 the
day-1 price is `100·(1+1) = 200`; the realized day-1 log-return is
`log(200/100) = log 2 ≠ 1`, so the drawn value is compounded as a
simple return, not as a log-return.  (ii) Under a stream whose draws
differ across the per-symbol segments (here `d n = n`), the series at
positions 0 and 1 differ — refuting that the fallback series are
identical in shape for any run, differing only by symbol label. -/
theorem mock_fallback_cex :
    (mockSeries (fun _ : ℕ => (1 : ℚ)) 0).get? 1 = some 200 ∧
    Real.log ((200 : ℝ) / 100) ≠ 1 ∧
    mockSeries (fun n : ℕ => (n : ℚ)) 0 ≠ mockSeries (fun n : ℕ => (n : ℚ)) 1 := by
  refine ⟨?_, ?_, ?_⟩
  · rw [mockSeries_get_one]
    norm_num
  · rw [show ((200 : ℝ) / 100) = 2 by norm_num]
    intro h
    have hl := Real.log_two_lt_d9
    rw [h] at hl
    norm_num at hl
  · intro heq
    have h0 : (mockSeries (fun n : ℕ => (n : ℚ)) 0).get? 1 = some 200 := by
      rw [mockSeries_get_one]
      norm_num
    have h1 : (mockSeries (fun n : ℕ => (n : ℚ)) 1).get? 1 = some 25400 := by
      rw [mockSeries_get_one]
      norm_num
    rw [heq, h1] at h0
    exact absurd (Option.some.inj h0) (by norm_num)

/-- Claim C5 as amended: on any provider failure the adapter falls back
to the deterministic synthetic generator; each series has 252 prices
starting at the base price 100; the series at position `i` compounds
the stream draws `252·i+1 .. 252·i+251` as simple returns
(`price·(1 + draw)`, the first draw of each block being skipped); the
labels are the request's symbols in order, and the series depend only
on the list position — not on the symbol label — so the fallback matrix
is reproducible across calls with the same symbol list and any two
equally long symbol lists receive identical series columns. -/
theorem mock_fallback_structure (d : ℕ → ℚ) (e : String)
    (symbols syms2 : List String) (hlen : symbols.length = syms2.length) :
    get_historical_data (.error e) d symbols = mockData d symbols ∧
    (mockData d symbols).map Prod.fst = symbols ∧
    (mockData d symbols).map Prod.snd =
      (List.range symbols.length).map (fun i => mockSeries d i) ∧
    (∀ i : ℕ, (mockSeries d i).length = 252 ∧ (mockSeries d i).get? 0 = some 100) ∧
    (∀ i k : ℕ, k + 1 < 252 →
      (mockSeries d i).get? (k + 1) =
        ((mockSeries d i).get? k).map (fun q => q * (1 + d (252 * i + (k + 1))))) ∧
    (mockData d symbols).map Prod.snd = (mockData d syms2).map Prod.snd := by
  refine ⟨rfl, mockData_fst d symbols, mockData_snd d symbols,
    fun i => ⟨mockSeries_length d i, mockSeries_get_zero d i⟩,
    fun i k hk => mockSeries_step d i k hk, ?_⟩
  rw [mockData_snd, mockData_snd, hlen]

/-- Witness for the amended C5 at the constant stream and the equally
long symbol lists of two different label sets. -/
theorem mock_fallback_structure_witness :
    get_historical_data (.error "provider down") (fun _ : ℕ => (0 : ℚ)) ["A", "B"] =
      mockData (fun _ : ℕ => (0 : ℚ)) ["A", "B"] ∧
    (mockData (fun _ : ℕ => (0 : ℚ)) ["A", "B"]).map Prod.fst = ["A", "B"] ∧
    (mockSeries (fun _ : ℕ => (0 : ℚ)) 0).length = 252 ∧
    (mockSeries (fun _ : ℕ => (0 : ℚ)) 0).get? 1 =
      ((mockSeries (fun _ : ℕ => (0 : ℚ)) 0).get? 0).map
        (fun q => q * (1 + (fun _ : ℕ => (0 : ℚ)) (252 * 0 + (0 + 1)))) ∧
    (mockData (fun _ : ℕ => (0 : ℚ)) ["A", "B"]).map Prod.snd =
      (mockData (fun _ : ℕ => (0 : ℚ)) ["X", "Y"]).map Prod.snd := by
  obtain ⟨h1, h2, _, h4, h5, h6⟩ :=
    mock_fallback_structure (fun _ : ℕ => (0 : ℚ)) "provider down" ["A", "B"] ["X", "Y"] rfl
  exact ⟨h1, h2, (h4 0).1, h5 0 0 (by omega), h6⟩

/-! Lemmas about `np.linspace`. -/

theorem linspace_length (a b : ℚ) : ∀ num : ℕ, (linspace a b num).length = num
  | 0 => rfl
  | 1 => rfl
  | n + 2 => by
    simp only [linspace, List.length_map, List.length_range]

theorem linspace_get (a b : ℚ) (n i : ℕ) (hi : i < n + 2) :
    (linspace a b (n + 2)).get? i = some (a + (b - a) * (i : ℚ) / ((n : ℚ) + 1)) := by
  simp only [linspace]
  rw [List.get?_map, List.get?_range hi]
  rfl

theorem linspace_head (a b : ℚ) (n : ℕ) :
    (linspace a b (n + 2)).get? 0 = some a := by
  rw [linspace_get a b n 0 (by omega)]
  norm_num

theorem linspace_last (a b : ℚ) (n : ℕ) :
    (linspace a b (n + 2)).get? (n + 1) = some b := by
  rw [linspace_get a b n (n + 1) (by omega)]
  have hne : ((n : ℚ) + 1) ≠ 0 := by positivity
  congr 1
  push_cast
  field_simp

theorem linspace_step (a b : ℚ) (n i : ℕ) (hi : i + 1 < n + 2) :
    ∃ u v, (linspace a b (n + 2)).get? i = some u ∧
      (linspace a b (n + 2)).get? (i + 1) = some v ∧
      v - u = (b - a) / ((n : ℚ) + 1) := by
  refine ⟨_, _, linspace_get a b n i (by omega), linspace_get a b n (i + 1) hi, ?_⟩
  have hne : ((n : ℚ) + 1) ≠ 0 := by positivity
  push_cast
  field_simp
  ring

/-!
Claim C6 (confirmed).  The frontier generator uses the fixed box bounds
`(0.01, 0.70)` and the equal-weight initial guess for every solve; it
first solves min-volatility, then max-return, both without a target
constraint; the targets are `num` equally spaced values (inclusive)
between the returns of those two endpoint solves; and each target solve
carries the volatility objective with its target-return constraint.
-/

/-- Claim C6: structure of the efficient-frontier sweep.  Every solver
call carries the frontier bounds and the equal-weight initial guess; the
first two calls are the untargeted min-volatility and max-return
solves; the remaining calls are, in order, one volatility solve per
target return; the endpoints are the returns of the two endpoint
solves; and the target list has exactly `num` entries, starts at the
first endpoint, ends at the second, and advances in equal steps of
`(max − min)/(num − 1)`. -/
theorem frontier_algorithm_structure
    (solver : Solver) (sqrtFn : ℚ → ℚ) (mean_returns : Vec) (cov_matrix : Mat)
    (symbols : List String) (num : ℕ) (h2 : 2 ≤ num) :
    (∀ p ∈ (generate_run solver sqrtFn (.ok (mean_returns, cov_matrix)) symbols num).1,
        p.bounds = frontierBounds symbols.length ∧ p.init = equalWeights symbols.length) ∧
    (generate_run solver sqrtFn (.ok (mean_returns, cov_matrix)) symbols num).1.get? 0 =
      some (frontierProblem .volatility symbols.length none mean_returns cov_matrix) ∧
    (generate_run solver sqrtFn (.ok (mean_returns, cov_matrix)) symbols num).1.get? 1 =
      some (frontierProblem .negReturn symbols.length none mean_returns cov_matrix) ∧
    ((generate_run solver sqrtFn (.ok (mean_returns, cov_matrix)) symbols num).1.drop 2 =
      (frontierTargets solver sqrtFn mean_returns cov_matrix symbols.length num).map
        (fun t => frontierProblem .volatility symbols.length (some t) mean_returns cov_matrix)) ∧
    frontierEndpoints solver sqrtFn mean_returns cov_matrix symbols.length =
      ((portfolio_stats sqrtFn
          (solver (frontierProblem .volatility symbols.length none mean_returns cov_matrix)).x
          mean_returns cov_matrix).ret,
        (portfolio_stats sqrtFn
          (solver (frontierProblem .negReturn symbols.length none mean_returns cov_matrix)).x
          mean_returns cov_matrix).ret) ∧
    (frontierTargets solver sqrtFn mean_returns cov_matrix symbols.length num).length = num ∧
    (frontierTargets solver sqrtFn mean_returns cov_matrix symbols.length num).get? 0 =
      some (frontierEndpoints solver sqrtFn mean_returns cov_matrix symbols.length).1 ∧
    (frontierTargets solver sqrtFn mean_returns cov_matrix symbols.length num).get? (num - 1) =
      some (frontierEndpoints solver sqrtFn mean_returns cov_matrix symbols.length).2 ∧
    (∀ i : ℕ, i + 1 < num →
      ∃ u v,
        (frontierTargets solver sqrtFn mean_returns cov_matrix symbols.length num).get? i =
          some u ∧
        (frontierTargets solver sqrtFn mean_returns cov_matrix symbols.length num).get? (i + 1) =
          some v ∧
        v - u = ((frontierEndpoints solver sqrtFn mean_returns cov_matrix symbols.length).2 -
            (frontierEndpoints solver sqrtFn mean_returns cov_matrix symbols.length).1) /
          ((num : ℚ) - 1)) := by
  obtain ⟨m, rfl⟩ : ∃ m, num = m + 2 := ⟨num - 2, by omega⟩
  refine ⟨?_, rfl, rfl, rfl, rfl, ?_, ?_, ?_, ?_⟩
  · intro p hp
    simp only [generate_run, List.mem_cons] at hp
    rcases hp with rfl | rfl | hp
    · exact ⟨rfl, rfl⟩
    · exact ⟨rfl, rfl⟩
    · unfold frontierTargetProblems at hp
      rcases List.mem_map.mp hp with ⟨t, _, rfl⟩
      exact ⟨rfl, rfl⟩
  · show (linspace (frontierEndpoints solver sqrtFn mean_returns cov_matrix symbols.length).1
        (frontierEndpoints solver sqrtFn mean_returns cov_matrix symbols.length).2
        (m + 2)).length = m + 2
    exact linspace_length _ _ _
  · show (linspace (frontierEndpoints solver sqrtFn mean_returns cov_matrix symbols.length).1
        (frontierEndpoints solver sqrtFn mean_returns cov_matrix symbols.length).2
        (m + 2)).get? 0 =
      some (frontierEndpoints solver sqrtFn mean_returns cov_matrix symbols.length).1
    exact linspace_head _ _ _
  · show (linspace (frontierEndpoints solver sqrtFn mean_returns cov_matrix symbols.length).1
        (frontierEndpoints solver sqrtFn mean_returns cov_matrix symbols.length).2
        (m + 2)).get? (m + 1) =
      some (frontierEndpoints solver sqrtFn mean_returns cov_matrix symbols.length).2
    exact linspace_last _ _ m
  · intro i hi
    obtain ⟨u, v, hu, hv, hs⟩ := linspace_step
      (frontierEndpoints solver sqrtFn mean_returns cov_matrix symbols.length).1
      (frontierEndpoints solver sqrtFn mean_returns cov_matrix symbols.length).2 m i hi
    refine ⟨u, v, hu, hv, ?_⟩
    rw [hs]
    congr 1
    push_cast
    ring

/-- Witness for C6 at a concrete one-asset sweep with two points. -/
theorem frontier_algorithm_structure_witness :
    (generate_run solverAlways id (.ok ([0], [[0]])) ["A"] 2).1.get? 0 =
      some (frontierProblem .volatility (["A"] : List String).length none [0] [[0]]) ∧
    (generate_run solverAlways id (.ok ([0], [[0]])) ["A"] 2).1.get? 1 =
      some (frontierProblem .negReturn (["A"] : List String).length none [0] [[0]]) ∧
    ((generate_run solverAlways id (.ok ([0], [[0]])) ["A"] 2).1.drop 2 =
      (frontierTargets solverAlways id [0] [[0]] (["A"] : List String).length 2).map
        (fun t => frontierProblem .volatility (["A"] : List String).length (some t) [0] [[0]])) ∧
    (frontierTargets solverAlways id [0] [[0]] (["A"] : List String).length 2).length = 2 ∧
    (frontierTargets solverAlways id [0] [[0]] (["A"] : List String).length 2).get? 0 =
      some (frontierEndpoints solverAlways id [0] [[0]] (["A"] : List String).length).1 ∧
    (frontierTargets solverAlways id [0] [[0]] (["A"] : List String).length 2).get? (2 - 1) =
      some (frontierEndpoints solverAlways id [0] [[0]] (["A"] : List String).length).2 := by
  obtain ⟨_, hb, hc, hd, _, hf, hg, hh, _⟩ :=
    frontier_algorithm_structure solverAlways id [0] [[0]] ["A"] 2 (by omega)
  exact ⟨hb, hc, hd, hf, hg, hh⟩

end FinanceBot
